import Mathlib

/-!
Verification of the airline reservation system (`src/airline.py`).

The Python source is shallowly embedded below.  Python strings are Lean
`String`s (a packed `List Char`); the wall clock read by
`datetime.now().strftime('%Y%m%d%H%M%S')` is made an explicit parameter:
every operation that constructs a `Passenger` receives the formatted
timestamp string `now` of the second at which it runs (`strftime` yields
equal strings for calls within the same second and distinct strings for
distinct seconds in the representable range).  Fallible Python code
(statements that can raise) is embedded as `Except`-valued functions.
-/

/-! ### Python string primitives used by the source -/

/-- `str.lower` restricted to the ASCII range: uppercase letters are mapped
to the corresponding lowercase letters, every other character is kept.
(The data handled by the program — names, queries — is treated as ASCII;
Python's full Unicode lowering agrees with this on ASCII.) -/
def pyLowerChar (c : Char) : Char :=
  if 'A' ≤ c ∧ c ≤ 'Z' then Char.ofNat (c.toNat + 32) else c

/-- Python `s.lower()`. -/
def pyLower (s : String) : String :=
  String.mk (s.toList.map pyLowerChar)

/-- ASCII whitespace stripped by Python `str.strip()`. -/
def isPySpace (c : Char) : Bool :=
  c = ' ' ∨ c = '\t' ∨ c = '\n' ∨ c = '\r' ∨ c = '\x0b' ∨ c = '\x0c'

/-- Python `s.strip()`: drop leading and trailing whitespace. -/
def pyStrip (s : String) : String :=
  String.mk (((s.toList.dropWhile isPySpace).reverse.dropWhile isPySpace).reverse)

/-- Lexicographic `<` on code-point lists, as Python compares strings. -/
def lexLtChars : List Char → List Char → Bool
  | [], [] => false
  | [], _ :: _ => true
  | _ :: _, [] => false
  | a :: as, b :: bs => if a < b then true else if b < a then false else lexLtChars as bs

/-- Python `a < b` on strings. -/
def pyLt (a b : String) : Bool :=
  lexLtChars a.toList b.toList

/-- `startsList n h`: the list `h` starts with the list `n`. -/
def startsList : List Char → List Char → Bool
  | [], _ => true
  | _ :: _, [] => false
  | a :: as, b :: bs => a = b && startsList as bs

/-- `hasSub n h`: `n` occurs as a contiguous sublist of `h`. -/
def hasSub (n : List Char) : List Char → Bool
  | [] => startsList n []
  | c :: cs => startsList n (c :: cs) || hasSub n cs

/-- Python `needle in hay` on strings (contiguous substring test). -/
def pyIn (needle hay : String) : Bool :=
  hasSub needle.toList hay.toList

/-! ### `validate_passport`: the regex `^[A-Z0-9]{9}$` under `re.match`

`re.match` anchors at the start of the string; `[A-Z0-9]{9}` consumes
exactly nine characters of the class; `$` (without `re.MULTILINE`) matches
at the end of the string **or just before a newline at the end of the
string**.  The matcher below is that automaton, run on the character
list. -/

/-- The character class `[A-Z0-9]`. -/
def isPassportChar (c : Char) : Bool :=
  ('A' ≤ c && c ≤ 'Z') || ('0' ≤ c && c ≤ '9')

/-- Consume exactly `n` characters satisfying `p`; return the rest of the
input on success. -/
def matchRepChar (p : Char → Bool) : Nat → List Char → Option (List Char)
  | 0, rest => some rest
  | _ + 1, [] => none
  | n + 1, c :: cs => if p c then matchRepChar p n cs else none

/-- The regex anchor `$`: succeeds at the end of the input or just before a
single trailing newline. -/
def matchDollar : List Char → Bool
  | [] => true
  | [c] => c = '\n'
  | _ :: _ :: _ => false

/-- `AirlineSystem.validate_passport`:
`bool(re.match(r'^[A-Z0-9]{9}$', passport))`. -/
def validate_passport (passport : String) : Bool :=
  match matchRepChar isPassportChar 9 passport.toList with
  | some rest => matchDollar rest
  | none => false

/-! ### Data model -/

/-- `Passenger` (`src/airline.py`, class `Passenger`): the four submitted
fields plus the `booking_id` derived at construction time. -/
structure Passenger where
  name : String
  passport : String
  flight_no : String
  seat : String
  booking_id : String
deriving DecidableEq

/-- `Passenger.generate_booking_id`:
`f"BK{datetime.now().strftime('%Y%m%d%H%M%S')}"`, with the formatted
clock reading passed in as `now`. -/
def generate_booking_id (now : String) : String :=
  "BK" ++ now

/-- `Passenger.__init__(name, passport, flight_no, seat)` run at clock
second `now`: stores the four fields and generates the booking id. -/
def mkPassenger (now name passport flight_no seat : String) : Passenger :=
  { name := name, passport := passport, flight_no := flight_no, seat := seat,
    booking_id := generate_booking_id now }

/-- JSON values, the possible results of `json.load`. -/
inductive Json where
  | jnull : Json
  | jbool : Bool → Json
  | jnum : Int → Json
  | jstr : String → Json
  | jarr : List Json → Json
  | jobj : List (String × Json) → Json

/-- The Python exceptions the loader can raise (uncaught by the source). -/
inductive PyError where
  | keyError : String → PyError
  | typeError : PyError
deriving DecidableEq

/-- The state of the persistence target as seen by `load_reservations`:
the file may be missing, may exist but fail `json.load` with a
`JSONDecodeError`, or may parse to a JSON value. -/
inductive FileState where
  | missing : FileState
  | invalidJson : FileState
  | parsed : Json → FileState

/-- `Passenger.to_dict`: the serialized record, in the source's key
order. -/
def to_dict (p : Passenger) : Json :=
  Json.jobj [("booking_id", Json.jstr p.booking_id), ("name", Json.jstr p.name),
             ("passport", Json.jstr p.passport), ("flight_no", Json.jstr p.flight_no),
             ("seat", Json.jstr p.seat)]

/-- `AirlineSystem` (`src/airline.py`): the mutable state is the list of
reservations; `data_file` is modelled by passing `FileState` values
explicitly, and the two constant tables are the definitions below. -/
structure AirlineSystem where
  reservations : List Passenger
deriving DecidableEq

/-- `self.available_flights = ["FL101", "FL102", "FL103"]`. -/
def available_flights : List String :=
  ["FL101", "FL102", "FL103"]

/-- `self.seats = [f"{row}{letter}" for row in range(1, 11) for letter in "ABCDEF"]`. -/
def seats : List String :=
  (List.range 10).flatMap (fun row => "ABCDEF".toList.map (fun letter => toString (row + 1) ++ String.mk [letter]))

/-- Lookup `d[k]` on a dict built by the JSON parser from the field list
`fields` (later duplicate keys overwrite earlier ones, hence the last
occurrence wins). -/
def dictGet (fields : List (String × Json)) (k : String) : Option Json :=
  (fields.reverse.find? (fun kv => kv.1 == k)).map (fun kv => kv.2)

/-- The subscript `d[k]` where a string is expected.  A missing key raises
`KeyError(k)`.  (Model restriction: a present key must hold a JSON string —
every file written by `save_reservations` has string fields; Python itself
would store a non-string value unchanged in the `Passenger`, deferring any
failure.) -/
def getStrField (fields : List (String × Json)) (k : String) : Except PyError String :=
  match dictGet fields k with
  | none => Except.error (PyError.keyError k)
  | some (Json.jstr s) => Except.ok s
  | some _ => Except.error PyError.typeError

/-- One step of the load comprehension:
`Passenger(d["name"], d["passport"], d["flight_no"], d["seat"])` at clock
second `now`.  Subscripting a non-dict `d` raises `TypeError`. -/
def decodePassenger (now : String) : Json → Except PyError Passenger
  | Json.jobj fields =>
    match getStrField fields "name" with
    | Except.error e => Except.error e
    | Except.ok n =>
      match getStrField fields "passport" with
      | Except.error e => Except.error e
      | Except.ok pp =>
        match getStrField fields "flight_no" with
        | Except.error e => Except.error e
        | Except.ok f =>
          match getStrField fields "seat" with
          | Except.error e => Except.error e
          | Except.ok s => Except.ok (mkPassenger now n pp f s)
  | _ => Except.error PyError.typeError

/-- The load comprehension over the elements of the parsed array; the
`i`-th constructed `Passenger` reads the clock as `clock i`. -/
def decodeList (clock : Nat → String) : Nat → List Json → Except PyError (List Passenger)
  | _, [] => Except.ok []
  | i, j :: js =>
    match decodePassenger (clock i) j with
    | Except.error e => Except.error e
    | Except.ok p =>
      match decodeList clock (i + 1) js with
      | Except.error e => Except.error e
      | Except.ok ps => Except.ok (p :: ps)

/-- `[Passenger(...) for d in data]` for an arbitrary parsed `data`.
Python iterates lists by element, dicts by key and strings by character;
an empty dict or empty string iterates to nothing (yielding `[]`), a
non-empty dict or string yields a string `d`, and `d["name"]` on a string
raises `TypeError`; the remaining values are not iterable (`TypeError`). -/
def loadPassengers (clock : Nat → String) : Json → Except PyError (List Passenger)
  | Json.jarr xs => decodeList clock 0 xs
  | Json.jobj [] => Except.ok []
  | Json.jstr "" => Except.ok []
  | Json.jobj (_ :: _) => Except.error PyError.typeError
  | Json.jstr _ => Except.error PyError.typeError
  | _ => Except.error PyError.typeError

/-- `AirlineSystem.load_reservations` as run from `__init__` (where
`self.reservations` is `[]`): a missing file leaves the empty list, a
`JSONDecodeError` is caught and leaves the empty list, and any other
exception of the comprehension propagates. -/
def load_reservations (clock : Nat → String) : FileState → Except PyError (List Passenger)
  | FileState.missing => Except.ok []
  | FileState.invalidJson => Except.ok []
  | FileState.parsed j => loadPassengers clock j

/-- `AirlineSystem.__init__(data_file)`: construct the store by loading the
persistence target. -/
def initAirlineSystem (clock : Nat → String) (fs : FileState) : Except PyError AirlineSystem :=
  match load_reservations clock fs with
  | Except.error e => Except.error e
  | Except.ok rs => Except.ok { reservations := rs }

/-- `AirlineSystem.save_reservations`: the file content written is the
JSON array of the serialized reservations. -/
def save_reservations (sys : AirlineSystem) : FileState :=
  FileState.parsed (Json.jarr (sys.reservations.map to_dict))

/-- `AirlineSystem.view_reservations` (the spec's `list`): the snapshot of
all reservations in serialized form. -/
def view_reservations (sys : AirlineSystem) : List Json :=
  sys.reservations.map to_dict

/-- The distinct failures `book_ticket` raises (`ValueError`s in the
source; the spec's `InvalidInput` is the first four, `Conflict` the
last). -/
inductive BookError where
  | emptyName : BookError
  | invalidPassport : BookError
  | invalidFlight : BookError
  | invalidSeat : BookError
  | seatTaken : BookError
deriving DecidableEq

/-- `AirlineSystem.book_ticket(name, passport, flight_no, seat)` run at
clock second `now`.  On success returns the updated store and the new
booking id (the file write it performs is `save_reservations` of the
returned store). -/
def book_ticket (sys : AirlineSystem) (now name passport flight_no seat : String) :
    Except BookError (AirlineSystem × String) :=
  if pyStrip name = "" then Except.error BookError.emptyName
  else if validate_passport passport = false then Except.error BookError.invalidPassport
  else if available_flights.contains flight_no = false then Except.error BookError.invalidFlight
  else if seats.contains seat = false then Except.error BookError.invalidSeat
  else if sys.reservations.any (fun r => r.seat == seat && r.flight_no == flight_no) then
    Except.error BookError.seatTaken
  else
    let p := mkPassenger now name passport flight_no seat
    Except.ok ({ reservations := sys.reservations ++ [p] }, p.booking_id)

/-- `AirlineSystem.cancel_reservation(booking_id)`: rebind the collection
to the records whose id differs, and report whether the length dropped. -/
def cancel_reservation (sys : AirlineSystem) (booking_id : String) : AirlineSystem × Bool :=
  let kept := sys.reservations.filter (fun r => r.booking_id != booking_id)
  if kept.length < sys.reservations.length then ({ reservations := kept }, true)
  else ({ reservations := kept }, false)

/-! ### `search_reservations` -/

/-- Default value for list indexing (never reached at in-range indices). -/
def dummyPassenger : Passenger :=
  { name := "", passport := "", flight_no := "", seat := "", booking_id := "" }

/-- Insert `p` into a list already sorted by lowercased name, before the
first element whose key is strictly greater — the stable ascending order of
Python's `list.sort(key=lambda x: x.name.lower())`. -/
def insertByKey (p : Passenger) : List Passenger → List Passenger
  | [] => [p]
  | q :: qs =>
    if pyLt (pyLower q.name) (pyLower p.name) then q :: insertByKey p qs
    else p :: q :: qs

/-- `reservations.sort(key=lambda x: x.name.lower())`: stable sort
ascending by lowercased name. -/
def sortByNameLower (rs : List Passenger) : List Passenger :=
  rs.foldr insertByKey []

/-- The body of `AirlineSystem.search_reservations(query, reservations)`,
with the recursion depth bounded by `fuel`.  Each recursive call of the
source strictly shrinks the slice, so `fuel = reservations.length` never
runs out (`search_fuel_irrelevant` below); the recursion passes the
lowercased query and the slices of the sorted list, exactly as the
source does. -/
def searchAux : Nat → String → List Passenger → List Passenger
  | 0, _, _ => []
  | fuel + 1, query, reservations =>
    if query = "" then reservations
    else if reservations.length = 0 then []
    else if pyLower ((sortByNameLower reservations).getD (reservations.length / 2) dummyPassenger).name
            = pyLower query then
      [(sortByNameLower reservations).getD (reservations.length / 2) dummyPassenger]
    else if reservations.length = 1 then
      (if pyIn (pyLower query)
            (pyLower ((sortByNameLower reservations).getD (reservations.length / 2) dummyPassenger).name) then
        [(sortByNameLower reservations).getD 0 dummyPassenger]
      else [])
    else if pyLt (pyLower query)
            (pyLower ((sortByNameLower reservations).getD (reservations.length / 2) dummyPassenger).name) then
      searchAux fuel (pyLower query) ((sortByNameLower reservations).take (reservations.length / 2))
    else
      searchAux fuel (pyLower query) ((sortByNameLower reservations).drop (reservations.length / 2))

/-- `AirlineSystem.search_reservations(query, reservations)` on an explicit
reservation list. -/
def search_reservations (query : String) (reservations : List Passenger) : List Passenger :=
  searchAux reservations.length query reservations

/-- `system.search_reservations(query)` with the default
`reservations=None`: the parameter is then an alias of
`self.reservations`, so the in-place sort performed by the top-level call
(reached when the query and the collection are both non-empty) reorders
the store's own list; the recursive calls receive slice copies and leave
the store alone.  Returns the results and the store afterwards. -/
def searchStore (sys : AirlineSystem) (query : String) : List Passenger × AirlineSystem :=
  (search_reservations query sys.reservations,
   if query = "" then sys
   else if sys.reservations.length = 0 then sys
   else { reservations := sortByNameLower sys.reservations })

/-! ### Operation traces over a store -/

/-- A mutating operation invoked on a store, with the clock reading of a
`book` made explicit. -/
inductive Op where
  | book : String → String → String → String → String → Op
  | cancel : String → Op

/-- The booking ids freshly generated by one operation. -/
def opNewIds : Op → List String
  | Op.book now _ _ _ _ => [generate_booking_id now]
  | Op.cancel _ => []

/-- Apply one operation; a `book` that raises leaves the store unchanged
(the CLI catches the `ValueError` and loops). -/
def applyOp (sys : AirlineSystem) : Op → AirlineSystem
  | Op.book now name passport flight_no seat =>
    match book_ticket sys now name passport flight_no seat with
    | Except.ok res => res.1
    | Except.error _ => sys
  | Op.cancel bid => (cancel_reservation sys bid).1

/-- Run a sequence of operations. -/
def runOps (sys : AirlineSystem) (ops : List Op) : AirlineSystem :=
  ops.foldl applyOp sys

/-- The booking ids of the active reservations. -/
def usedIds (sys : AirlineSystem) : List String :=
  sys.reservations.map (fun r => r.booking_id)

/-- Equality of `Except` results is decidable (needed to evaluate the
functions above on concrete inputs). -/
instance {e a : Type} [DecidableEq e] [DecidableEq a] : DecidableEq (Except e a) := fun x y =>
  match x, y with
  | Except.ok v, Except.ok w =>
    if h : v = w then isTrue (by rw [h]) else isFalse (by intro hc; cases hc; exact h rfl)
  | Except.error v, Except.error w =>
    if h : v = w then isTrue (by rw [h]) else isFalse (by intro hc; cases hc; exact h rfl)
  | Except.ok _, Except.error _ => isFalse (by intro hc; cases hc)
  | Except.error _, Except.ok _ => isFalse (by intro hc; cases hc)

/-! ### Concrete fixtures used by witnesses and counterexamples -/

/-- A passenger booked at clock second `20250101120000`. -/
def aliceP : Passenger :=
  mkPassenger "20250101120000" "Alice" "ABCDEFGH1" "FL101" "1A"

/-- The same record as reconstructed by a reload at clock second
`20250101120001`. -/
def aliceReloaded : Passenger :=
  mkPassenger "20250101120001" "Alice" "ABCDEFGH1" "FL101" "1A"

/-- A second passenger, distinct name and flight. -/
def bobP : Passenger :=
  mkPassenger "20250101120005" "Bob" "ZZ1234567" "FL102" "2B"

/-- A store reached by two successful `book` calls within the same clock
second (seats differ, so both pass every check). -/
def dupSys : AirlineSystem :=
  runOps { reservations := [] }
    [Op.book "20250101120000" "Alice" "ABCDEFGH1" "FL101" "1A",
     Op.book "20250101120000" "Bob" "ZZ1234567" "FL101" "1B"]

/-! ### Helper lemmas -/

theorem length_insertByKey (p : Passenger) (l : List Passenger) :
    (insertByKey p l).length = l.length + 1 := by
  induction l with
  | nil => rfl
  | cons q qs ih =>
    unfold insertByKey
    split_ifs with h
    · simp [ih]
    · simp

theorem length_sortByNameLower (rs : List Passenger) :
    (sortByNameLower rs).length = rs.length := by
  induction rs with
  | nil => rfl
  | cons a as ih =>
    show (insertByKey a (sortByNameLower as)).length = as.length + 1
    rw [length_insertByKey, ih]

theorem insertByKey_perm (p : Passenger) (l : List Passenger) :
    (insertByKey p l).Perm (p :: l) := by
  induction l with
  | nil => exact List.Perm.refl _
  | cons q qs ih =>
    unfold insertByKey
    split_ifs with h
    · exact (ih.cons q).trans (List.Perm.swap p q qs)
    · exact List.Perm.refl _

theorem sortByNameLower_perm (rs : List Passenger) :
    (sortByNameLower rs).Perm rs := by
  induction rs with
  | nil => exact List.Perm.refl _
  | cons a as ih =>
    exact (insertByKey_perm a (sortByNameLower as)).trans (ih.cons a)

theorem pyLower_eq_empty_iff (s : String) : pyLower s = "" ↔ s = "" := by
  constructor
  · intro h
    cases s with
    | mk data =>
      cases data with
      | nil => rfl
      | cons c cs => exact absurd (congrArg String.data h) (by simp [pyLower, String.toList])
  · intro h
    rw [h]
    rfl

theorem searchAux_nil (f : Nat) (q : String) : searchAux f q [] = [] := by
  cases f with
  | zero => rfl
  | succ n => simp [searchAux]

/-- C9: `search_reservations` terminates on every input.  Each recursive
call strictly shrinks the slice (the halves of a list of length at least
two are strictly shorter), and at singleton size the substring branch is
terminal; consequently the recursion depth is bounded by the length of the
input and the fuel-indexed embedding `searchAux` gives the same answer for
every fuel bound of at least the input length. -/
theorem search_terminates_fuel_irrelevant (f1 : Nat) : ∀ (f2 : Nat) (q : String) (rs : List Passenger),
    rs.length ≤ f1 → rs.length ≤ f2 → searchAux f1 q rs = searchAux f2 q rs := by
  induction f1 with
  | zero =>
    intro f2 q rs h1 h2
    have : rs = [] := List.length_eq_zero.mp (Nat.le_zero.mp h1)
    rw [this, searchAux_nil, searchAux_nil]
  | succ n ih =>
    intro f2 q rs h1 h2
    cases rs with
    | nil => rw [searchAux_nil, searchAux_nil]
    | cons a as =>
      cases f2 with
      | zero => exact absurd h2 (by simp)
      | succ m =>
        simp only [searchAux]
        split_ifs with hq hlen hmid hone hin hlt
        · rfl
        · rfl
        · rfl
        · rfl
        · rfl
        · have ht : ((sortByNameLower (a :: as)).take ((a :: as).length / 2)).length
              = min ((a :: as).length / 2) (a :: as).length := by
            simp [List.length_take, length_sortByNameLower]
          apply ih <;> omega
        · have hd : ((sortByNameLower (a :: as)).drop ((a :: as).length / 2)).length
              = (a :: as).length - (a :: as).length / 2 := by
            simp [List.length_drop, length_sortByNameLower]
          apply ih <;> omega

theorem searchAux_length_le_one (f : Nat) : ∀ (q : String) (rs : List Passenger),
    ¬ q = "" → (searchAux f q rs).length ≤ 1 := by
  induction f with
  | zero =>
    intro q rs hq
    simp [searchAux]
  | succ n ih =>
    intro q rs hq
    simp only [searchAux]
    split_ifs with hlen hmid hone hin hlt
    · simp
    · simp
    · simp
    · simp
    · exact ih _ _ (fun h => hq ((pyLower_eq_empty_iff q).mp h))
    · exact ih _ _ (fun h => hq ((pyLower_eq_empty_iff q).mp h))

/-- C8: for every non-empty reservation sequence and non-empty query, if
the (lowercased) name at the midpoint index `length / 2` of the sequence
sorted by lowercased name equals the lowercased query, the search returns
the single-element list holding exactly that record — regardless of any
other records, duplicates included. -/
theorem search_midpoint_exact_single (q : String) (rs : List Passenger)
    (hq : ¬ q = "") (hrs : ¬ rs = [])
    (hmid : pyLower ((sortByNameLower rs).getD (rs.length / 2) dummyPassenger).name = pyLower q) :
    search_reservations q rs = [(sortByNameLower rs).getD (rs.length / 2) dummyPassenger] := by
  cases rs with
  | nil => exact absurd rfl hrs
  | cons a as =>
    show searchAux (a :: as).length q (a :: as) = _
    simp only [List.length_cons] at hmid ⊢
    simp only [searchAux]
    rw [if_neg hq]
    simp only [List.length_cons]
    rw [if_neg (Nat.succ_ne_zero as.length), if_pos hmid]

theorem book_ticket_ok {sys : AirlineSystem} {now name passport flight_no seat : String}
    {res : AirlineSystem × String}
    (h : book_ticket sys now name passport flight_no seat = Except.ok res) :
    res.1.reservations = sys.reservations ++ [mkPassenger now name passport flight_no seat] := by
  unfold book_ticket at h
  split_ifs at h
  rw [Except.ok.injEq] at h
  rw [← h]

theorem applyOp_usedIds (sys : AirlineSystem) (op : Op) :
    List.Sublist (usedIds (applyOp sys op)) (usedIds sys ++ opNewIds op) := by
  cases op with
  | book now name passport flight_no seat =>
    simp only [applyOp, opNewIds]
    cases h : book_ticket sys now name passport flight_no seat with
    | error e => exact List.sublist_append_left _ _
    | ok res =>
      have hres := book_ticket_ok h
      simp only [usedIds, hres, List.map_append]
      exact List.Sublist.refl _
  | cancel bid =>
    simp only [applyOp, opNewIds, cancel_reservation, usedIds, List.append_nil]
    split_ifs <;> exact ((List.filter_sublist _).map _)

theorem runOps_usedIds (ops : List Op) : ∀ (sys : AirlineSystem),
    List.Sublist (usedIds (runOps sys ops)) (usedIds sys ++ ops.flatMap opNewIds) := by
  induction ops with
  | nil =>
    intro sys
    simp [runOps]
  | cons op ops ih =>
    intro sys
    have h1 := ih (applyOp sys op)
    have h2 := (applyOp_usedIds sys op).append_right (ops.flatMap opNewIds)
    have h3 : usedIds (runOps sys (op :: ops)) = usedIds (runOps (applyOp sys op) ops) := rfl
    rw [h3, List.flatMap_cons, ← List.append_assoc]
    exact h1.trans h2

theorem to_dict_booking_id {p q : Passenger} (h : to_dict p = to_dict q) :
    p.booking_id = q.booking_id := by
  simp only [to_dict, Json.jobj.injEq, List.cons.injEq, Prod.mk.injEq, Json.jstr.injEq] at h
  exact h.1.2

/-- C7 (amended): `cancel` with a booking id held by no reservation
returns false and leaves the store unchanged; `cancel` with a held
booking id returns true and removes every reservation bearing that id —
which is exactly the one matching record whenever no other reservation
shares the id (the collection is rebuilt by a filter, so with duplicate
ids all matching records go at once, see `cancel_removes_all_matching`). -/
theorem cancel_spec (sys : AirlineSystem) (bid : String) :
    ((∀ r ∈ sys.reservations, r.booking_id ≠ bid) →
       cancel_reservation sys bid = (sys, false))
    ∧ (∀ (l1 l2 : List Passenger) (r : Passenger),
        sys.reservations = l1 ++ r :: l2 → r.booking_id = bid →
        (∀ x ∈ l1 ++ l2, x.booking_id ≠ bid) →
        cancel_reservation sys bid = ({ reservations := l1 ++ l2 }, true)) := by
  refine ⟨fun hall => ?_, fun l1 l2 r hres hr hall => ?_⟩
  · have hk : sys.reservations.filter (fun r => r.booking_id != bid) = sys.reservations :=
      List.filter_eq_self.mpr (fun a ha => by simpa [bne_iff_ne] using hall a ha)
    unfold cancel_reservation
    simp only [hk, lt_irrefl, if_false]
  · have h1 : l1.filter (fun x => x.booking_id != bid) = l1 :=
      List.filter_eq_self.mpr (fun a ha => by
        simpa [bne_iff_ne] using hall a (List.mem_append_left _ ha))
    have h2 : l2.filter (fun x => x.booking_id != bid) = l2 :=
      List.filter_eq_self.mpr (fun a ha => by
        simpa [bne_iff_ne] using hall a (List.mem_append_right _ ha))
    have hf : sys.reservations.filter (fun x => x.booking_id != bid) = l1 ++ l2 := by
      rw [hres, List.filter_append, List.filter_cons, h1, h2]
      simp [hr]
    have hlt : (l1 ++ l2).length < sys.reservations.length := by
      rw [hres]
      simp [List.length_append]
    unfold cancel_reservation
    simp only [hf]
    rw [if_pos hlt]

/-! ### Claims -/

/-- C1 (code bug evidence): `book` → persist → reload into a fresh store
does NOT yield the same records field-for-field.  `load_reservations`
rebuilds every record through the `Passenger` constructor, which
regenerates `booking_id` from the load-time clock and ignores the
`booking_id` stored in the file (which `save_reservations` writes and
nothing ever reads).  A booking made at second `20250101120000` and
reloaded at second `20250101120001` keeps its four submitted fields but
comes back with a different `booking_id`, so `list` differs on that
field. -/
theorem reload_regenerates_booking_id :
    book_ticket { reservations := [] } "20250101120000" "Alice" "ABCDEFGH1" "FL101" "1A"
      = Except.ok ({ reservations := [aliceP] }, "BK20250101120000")
    ∧ initAirlineSystem (fun _ => "20250101120001") (save_reservations { reservations := [aliceP] })
      = Except.ok { reservations := [aliceReloaded] }
    ∧ aliceReloaded.booking_id ≠ aliceP.booking_id
    ∧ aliceReloaded.name = aliceP.name ∧ aliceReloaded.passport = aliceP.passport
    ∧ aliceReloaded.flight_no = aliceP.flight_no ∧ aliceReloaded.seat = aliceP.seat
    ∧ view_reservations { reservations := [aliceReloaded] }
        ≠ view_reservations { reservations := [aliceP] } := by
  refine ⟨by decide, by decide, by decide, rfl, rfl, rfl, rfl, ?_⟩
  intro h
  have h2 : to_dict aliceReloaded = to_dict aliceP := by
    simpa [view_reservations] using h
  exact absurd (to_dict_booking_id h2) (by decide)

/-- C2 (amended): `search_reservations` never adds or removes
reservations — the store afterwards holds the same multiset — but it is
not side-effect free: called with the default argument it sorts the
store's own list in place by lowercased name (when the query and the
collection are both non-empty), and otherwise leaves the store literally
unchanged. -/
theorem searchStore_frame (sys : AirlineSystem) (q : String) :
    ((searchStore sys q).2.reservations.Perm sys.reservations)
    ∧ ((searchStore sys q).2 = sys
       ∨ (searchStore sys q).2.reservations = sortByNameLower sys.reservations) := by
  unfold searchStore
  split_ifs with h1 h2
  · exact ⟨List.Perm.refl _, Or.inl rfl⟩
  · exact ⟨List.Perm.refl _, Or.inl rfl⟩
  · exact ⟨sortByNameLower_perm _, Or.inr rfl⟩

/-- C2 counterexample: a store holding Bob before Alice is reordered by a
search with a non-empty query — the collection afterwards has the same
elements but not the same order, refuting the claim that search leaves
the collection unchanged. -/
theorem searchStore_mutates_order :
    (searchStore { reservations := [bobP, aliceP] } "zzz").2
      ≠ { reservations := [bobP, aliceP] }
    ∧ (searchStore { reservations := [bobP, aliceP] } "zzz").2.reservations
      = [aliceP, bobP] := by
  exact ⟨by decide, by decide⟩

/-- C3 (amended): the guaranteed fail-soft cases are a missing
persistence target and content that is not syntactically valid JSON
(`json.load` raises `JSONDecodeError`, which the source catches): both
yield an empty reservation collection with no exception raised to the
caller.  Content that parses as JSON but is not a well-formed array of
reservation records is not in general fail-soft (see
`load_raises_on_wrong_shape` for `[{}]`), although some such shapes still
happen to yield an empty store because the comprehension iterates them to
nothing: an empty object `{}` and an empty string `""` also load as the
empty collection. -/
theorem load_soft_fail_invalid_json (clock : Nat → String) :
    initAirlineSystem clock FileState.invalidJson = Except.ok { reservations := [] }
    ∧ initAirlineSystem clock FileState.missing = Except.ok { reservations := [] }
    ∧ initAirlineSystem clock (FileState.parsed (Json.jobj [])) = Except.ok { reservations := [] }
    ∧ initAirlineSystem clock (FileState.parsed (Json.jstr "")) = Except.ok { reservations := [] } :=
  ⟨rfl, rfl, rfl, rfl⟩

/-- C3 counterexample: the file content `[{}]` is valid JSON but not a
well-formed array of reservation records; constructing a store over it
raises `KeyError('name')` to the caller instead of yielding an empty
collection — only `JSONDecodeError` is caught by the source. -/
theorem load_raises_on_wrong_shape :
    initAirlineSystem (fun _ => "20250101120000") (FileState.parsed (Json.jarr [Json.jobj []]))
      = Except.error (PyError.keyError "name") := by
  decide

/-- C4 (amended): after any sequence of book and cancel operations from
any starting store, `booking_id` is unique across the active reservations
provided the starting ids together with the ids generated from the book
calls' timestamps are pairwise distinct.  (Creations within the same
clock second collide, see `same_tick_duplicate_ids`.) -/
theorem booking_ids_nodup_of_distinct (sys0 : AirlineSystem) (ops : List Op)
    (h : (usedIds sys0 ++ ops.flatMap opNewIds).Nodup) :
    (usedIds (runOps sys0 ops)).Nodup :=
  List.Nodup.sublist (runOps_usedIds ops sys0) h

theorem booking_ids_nodup_of_distinct_witness :
    (usedIds (runOps { reservations := [] }
      [Op.book "20250101120000" "Alice" "ABCDEFGH1" "FL101" "1A",
       Op.book "20250101120001" "Bob" "ZZ1234567" "FL101" "1B"])).Nodup :=
  booking_ids_nodup_of_distinct { reservations := [] }
    [Op.book "20250101120000" "Alice" "ABCDEFGH1" "FL101" "1A",
     Op.book "20250101120001" "Bob" "ZZ1234567" "FL101" "1B"] (by decide)

/-- C4 counterexample: two successful `book` calls within the same clock
second (`dupSys`) leave the store with two reservations carrying the same
`booking_id`, refuting unconditional uniqueness in reachable states. -/
theorem same_tick_duplicate_ids :
    usedIds dupSys = ["BK20250101120000", "BK20250101120000"]
    ∧ ¬ (usedIds dupSys).Nodup := by
  exact ⟨by decide, by decide⟩

/-- C5 (code bug evidence): `validate_passport` does not accept exactly
the 9-character uppercase-alphanumeric strings.  Python's `$` anchor also
matches just before a newline at the end of the string, so the 10-character
string of nine valid characters followed by a newline passes validation,
contradicting the source's own comment ("9 alphanumeric characters") and
error message. -/
theorem passport_accepts_trailing_newline :
    validate_passport "ABCDEFGH1\n" = true
    ∧ ("ABCDEFGH1\n").length = 10
    ∧ validate_passport "ABCDEFGH1" = true
    ∧ validate_passport "AB12" = false := by
  exact ⟨by decide, by decide, by decide, by decide⟩

/-- C6: booking a `(flight_no, seat)` pair already held by some
reservation, with all submitted fields otherwise passing field validation,
fails with the Conflict error (`"Seat already booked"`) rather than
succeeding. -/
theorem book_conflict_on_taken_seat (sys : AirlineSystem)
    (now name passport flight_no seat : String)
    (hname : ¬ pyStrip name = "")
    (hpass : validate_passport passport = true)
    (hflight : available_flights.contains flight_no = true)
    (hseat : seats.contains seat = true)
    (r : Passenger) (hr : r ∈ sys.reservations)
    (hrf : r.flight_no = flight_no) (hrs : r.seat = seat) :
    book_ticket sys now name passport flight_no seat = Except.error BookError.seatTaken := by
  unfold book_ticket
  rw [if_neg hname, if_neg (by simp [hpass]), if_neg (by rw [hflight]; simp),
    if_neg (by rw [hseat]; simp),
    if_pos (List.any_eq_true.mpr ⟨r, hr, by simp [hrf, hrs]⟩)]

theorem book_conflict_on_taken_seat_witness :
    book_ticket { reservations := [aliceP] } "20250101130000" "Carol" "ZZ1234567" "FL101" "1A"
      = Except.error BookError.seatTaken :=
  book_conflict_on_taken_seat { reservations := [aliceP] }
    "20250101130000" "Carol" "ZZ1234567" "FL101" "1A"
    (by decide) (by decide) (by decide) (by decide) aliceP (by decide) (by decide) (by decide)

theorem cancel_spec_witness :
    cancel_reservation { reservations := [aliceP, bobP] } "nope"
      = ({ reservations := [aliceP, bobP] }, false)
    ∧ cancel_reservation { reservations := [aliceP, bobP] } bobP.booking_id
      = ({ reservations := [aliceP] }, true) := by
  constructor
  · exact (cancel_spec { reservations := [aliceP, bobP] } "nope").1 (by decide)
  · have h := (cancel_spec { reservations := [aliceP, bobP] } bobP.booking_id).2
      [aliceP] [] bobP rfl rfl (by decide)
    simpa using h

/-- C7 counterexample: in the reachable store `dupSys`, whose two
reservations share one `booking_id`, cancelling that id removes both
records (the collection drops from two to zero), not exactly one. -/
theorem cancel_removes_all_matching :
    dupSys.reservations.length = 2
    ∧ cancel_reservation dupSys "BK20250101120000" = ({ reservations := [] }, true) := by
  exact ⟨by decide, by decide⟩

theorem search_midpoint_exact_single_witness :
    search_reservations "alice" [aliceP] = [aliceP] := by
  have h := search_midpoint_exact_single "alice" [aliceP] (by decide) (by decide) (by decide)
  simpa using h

theorem search_terminates_fuel_irrelevant_witness :
    searchAux 5 "x" [aliceP, bobP] = searchAux 2 "x" [aliceP, bobP] :=
  search_terminates_fuel_irrelevant 5 2 "x" [aliceP, bobP] (by decide) (by decide)

/-- C10: with a non-empty query, `search_reservations` returns at most one
reservation, whatever the reservation sequence. -/
theorem search_at_most_one_result (q : String) (rs : List Passenger) (hq : ¬ q = "") :
    (search_reservations q rs).length ≤ 1 :=
  searchAux_length_le_one rs.length q rs hq

theorem search_at_most_one_result_witness :
    (search_reservations "bob" [aliceP, bobP]).length ≤ 1 :=
  search_at_most_one_result "bob" [aliceP, bobP] (by decide)
